import Mathlib

/-!
Shallow embedding of `ads/model/deployment/model_deployment.py` and
`ads/jobs/templates/driver_notebook.py`.

Remote interaction is modelled by an environment: a function from the poll
iteration index to the responses (or exceptions) the OCI data-science client
returns at that iteration.  Wall-clock time is modelled by the only
time-consuming statement of the loop, `time.sleep(poll_interval)`: at the
top-of-loop check number `k`, `utils.seconds_since(start_time)` is
`k * poll_interval` (the latency of the remote calls themselves is not
modelled; it can only make the elapsed time larger, never smaller).
-/

namespace ADS

/-- Modelled from the spec: the `State` enumeration lives in
`ads/model/deployment/common/utils.py`, which is not among the staged source
files; section 3 of the spec names its members (CREATING, ACTIVE, FAILED,
DELETED, INACTIVE, UNKNOWN). -/
inductive State where
  | CREATING
  | ACTIVE
  | FAILED
  | DELETED
  | INACTIVE
  | UNKNOWN
  deriving DecidableEq, Repr

/-- Modelled from the spec: python's `state.name.upper()` for the enumeration
members of the missing `State` class: the member's (already upper-case) name. -/
def State.nameUpper : State → String
  | .CREATING => "CREATING"
  | .ACTIVE => "ACTIVE"
  | .FAILED => "FAILED"
  | .DELETED => "DELETED"
  | .INACTIVE => "INACTIVE"
  | .UNKNOWN => "UNKNOWN"

/-- Modelled from the spec: `State._from_str` (missing
`ads/model/deployment/common/utils.py`) translates the remote
`lifecycle_state` string into the enumeration; the state "is copied verbatim
from periodic remote reads", strings outside the enumeration map to UNKNOWN. -/
def State.fromStr (s : String) : State :=
  if s = "CREATING" then .CREATING
  else if s = "ACTIVE" then .ACTIVE
  else if s = "FAILED" then .FAILED
  else if s = "DELETED" then .DELETED
  else if s = "INACTIVE" then .INACTIVE
  else .UNKNOWN

/-- model_deployment.py line 29. -/
def DEFAULT_WAIT_TIME : Int := 1200

/-- model_deployment.py line 30. -/
def DEFAULT_POLL_INTERVAL : Nat := 10

/-- model_deployment.py line 31. -/
def DEFAULT_WORKFLOW_STEPS : Nat := 6

/-- model_deployment.py line 32. -/
def DELETE_WORKFLOW_STEPS : Nat := 2

/-- model_deployment.py line 33. -/
def DEACTIVATE_WORKFLOW_STEPS : Nat := 2

/-- model_deployment.py line 34. -/
def DEFAULT_RETRYING_REQUEST_ATTEMPTS : Nat := 3

/-- model_deployment.py line 35. -/
def TERMINAL_STATES : List State := [.ACTIVE, .FAILED, .DELETED, .INACTIVE]

/-- One entry of the list returned by `ds_client.list_work_request_logs(...).data`;
only its `message` attribute is read (lines 612-618). -/
structure WorkRequestLogEntry where
  message : String
  deriving DecidableEq, Repr

/-- The JSON payload of `ds_client.get_model_deployment(...).data` as the poll
loop reads it (lines 596-607, 621-622): the`lifecycle_state` key may be absent
(`State.UNKNOWN` is then used) and so may `model_deployment_url`. -/
structure DeploymentPayload where
  lifecycle_state : Option String
  model_deployment_url : Option String
  deriving DecidableEq, Repr

/-- What the remote client returns during one poll iteration: the result of
`get_model_deployment` and of `list_work_request_logs`, either of which may
raise (modelled as `Except.error ()`). -/
structure PollResponse where
  get : Except Unit DeploymentPayload
  logs : Except Unit (List WorkRequestLogEntry)

/-- Lines 603-607: `State._from_str(payload["lifecycle_state"]) if
"lifecycle_state" in payload else State.UNKNOWN`. -/
def stateOfPayload (p : DeploymentPayload) : State :=
  match p.lifecycle_state with
  | some s => State.fromStr s
  | none => State.UNKNOWN

/-- The local variables and object fields the loop body of
`_wait_for_progress_completion` mutates: `self.current_state`, `self.url`,
`prev_message`, `prev_workflow_stage_len`, and the sequence of messages passed
to `progress.update` (the progress bar of the missing
`utils.get_progress_bar`, modelled as the list of reported messages). -/
structure LoopState where
  current_state : State
  url : String
  prev_message : String
  prev_workflow_stage_len : Nat
  progressUpdates : List String
  deriving DecidableEq, Repr

/-- Lines 611-619: when the workflow payload is a non-empty list and the
message of its last entry differs from `prev_message`, report that last
message once for each of `len(workflow_payload) - prev_workflow_stage_len`
(an empty range when non-positive) and record the new length and message. -/
def progressStep (w : List WorkRequestLogEntry) (st : LoopState) : LoopState :=
  if w ≠ [] then
    let lastMsg := ((w.getLast?).getD ⟨""⟩).message
    if st.prev_message ≠ lastMsg then
      { st with
        progressUpdates :=
          st.progressUpdates ++
            List.replicate (w.length - st.prev_workflow_stage_len) lastMsg,
        prev_workflow_stage_len := w.length,
        prev_message := lastMsg }
    else st
  else st

/-- Lines 594-625, the `try` block of one poll iteration, without its handler.
An `Except.error` result is the state at the moment an exception was raised:
python's mutations made before the raise are kept (nothing is rolled back).
The fetched state is assigned before the work-request logs are fetched, so a
failing `list_work_request_logs` still leaves `current_state` updated. -/
def pollTry (resp : PollResponse) (st : LoopState) : Except LoopState LoopState :=
  let prev_state := st.current_state
  match resp.get with
  | .error _ => .error st
  | .ok payload =>
    let st1 := { st with current_state := stateOfPayload payload }
    match resp.logs with
    | .error _ => .error st1
    | .ok w =>
      let st2 := progressStep w st1
      let st3 :=
        if prev_state ≠ st2.current_state then
          match payload.model_deployment_url with
          | some u => { st2 with url := u }
          | none => st2
        else st2
      .ok st3

/-- Lines 594-632: one poll iteration. The handler on lines 626-631 is a bare
swallow (its logging statement is commented out in the source), so a raised
exception leaves whatever was mutated before it and the loop goes on. -/
def pollBody (resp : PollResponse) (st : LoopState) : LoopState :=
  match pollTry resp st with
  | .ok st2 => st2
  | .error st2 => st2

/-- The state of the loop's mutable data just before top-of-loop check number
`k`, when the loop is entered with `init` and never exits before `k`:
check 0 sees `init`, and each iteration applies `pollBody` to the
environment's response for that iteration. -/
def stAt (env : Nat → PollResponse) (init : LoopState) : Nat → LoopState
  | 0 => init
  | k + 1 => pollBody (env k) (stAt env init k)

/-- The loop of lines 585-632, by recursion on fuel. `k` is the index of the
current top-of-loop check, so `utils.seconds_since(start_time)` is `k * p`.
The `while` condition (line 585-587) is checked first, then the disallowed
states (line 588-592, a `break`). On exit the pair carries the loop data and
the number of completed poll iterations, which equals the index of the check
at which the loop exited. `none` means the fuel ran out with the loop still
running. -/
def waitLoopAux (env : Nat → PollResponse) (f : String) (D : List String)
    (m : Int) (p : Nat) : Nat → Nat → LoopState → Option (LoopState × Nat)
  | 0, _, _ => none
  | fuel + 1, k, st =>
    if (m < 0 ∨ ((k * p : Nat) : Int) < m) ∧ st.current_state.nameUpper ≠ f then
      if st.current_state.nameUpper ∈ D then some (st, k)
      else waitLoopAux env f D m p fuel (k + 1) (pollBody (env k) st)
    else some (st, k)

/-- Lines 577-633, `_wait_for_progress_completion(final_state, work_flow_step,
disallowed_final_states, max_wait_time, poll_interval)`.  `work_flow_step`
only sizes the progress bar.  The check on lines 581-584 only logs (and with
elapsed time 0 at entry it never fires).  Line 633 reports "Done" after the
loop. -/
def wait_for_progress_completion (env : Nat → PollResponse) (f : String)
    (_work_flow_step : Nat) (D : List String) (m : Int) (p : Nat)
    (fuel : Nat) (init : LoopState) : Option (LoopState × Nat) :=
  (waitLoopAux env f D m p fuel 0 init).map fun r =>
    ({ r.1 with progressUpdates := r.1.progressUpdates ++ ["Done"] }, r.2)

/-- The loop exits at check `k` on state `st` exactly when: the state's name
equals the target final state, or it is one of the disallowed final states,
or the maximum wait time is non-negative and the elapsed time `k * p`
has reached it (a negative `m` makes this last disjunct false at every `k`:
the time budget never stops the loop). -/
def stopCond (f : String) (D : List String) (m : Int) (p : Nat)
    (st : LoopState) (k : Nat) : Prop :=
  st.current_state.nameUpper = f ∨ st.current_state.nameUpper ∈ D ∨
    (0 ≤ m ∧ m ≤ ((k * p : Nat) : Int))

instance (f : String) (D : List String) (m : Int) (p : Nat)
    (st : LoopState) (k : Nat) : Decidable (stopCond f D m p st k) := by
  unfold stopCond; infer_instance

/-- Lines 337-354, the `state` property: the environment gives, per attempt
index, either the `lifecycle_state` string of a successful
`get_model_deployment` or an exception. `attemptsLeft` counts the remaining
loop iterations, `requests` the get requests issued so far (one per
iteration); a bare `except: pass` swallows failures and the loop retries
after `time.sleep(1)`. On success `self.current_state` is updated and the
loop breaks; otherwise the cached state is returned. The result pairs the
returned state with the total number of get requests issued. -/
def statePropertyAux (env : Nat → Except Unit String) :
    Nat → Nat → State → State × Nat
  | 0, requests, cur => (cur, requests)
  | attemptsLeft + 1, requests, cur =>
    match env requests with
    | .ok s => (State.fromStr s, requests + 1)
    | .error _ => statePropertyAux env attemptsLeft (requests + 1) cur

/-- The `state` property (lines 337-354) entered with the cached
`self.current_state`: at most DEFAULT_RETRYING_REQUEST_ATTEMPTS attempts. -/
def state_property (env : Nat → Except Unit String) (cached : State) :
    State × Nat :=
  statePropertyAux env DEFAULT_RETRYING_REQUEST_ATTEMPTS 0 cached

/-- The `.data` object of a `get_model_deployment` response as the lifecycle
operations read it through attribute access (lines 241-246, 476-483,
529-536): `lifecycle_state`, `id` and `model_deployment_url` are attributes
of the OCI model object. -/
structure DeploymentObject where
  lifecycle_state : String
  id : String
  model_deployment_url : String
  deriving DecidableEq, Repr

/-- The cached `self.properties`, a `ModelDeploymentProperties` built from an
OCI payload (or none) and the auth config it captured. Only its identity
matters to the frame claims: `update` rebuilds it from a fresh remote read
(lines 322-328). -/
structure ModelDeploymentProperties where
  oci_model_deployment : Option DeploymentObject
  config : Nat
  deriving DecidableEq, Repr

/-- The local fields of a `ModelDeployment` object that the lifecycle
operations can read or write (lines 120-163): the auth `config` (an opaque
token), the cached `properties`, `current_state`, `url`,
`model_deployment_id`, `workflow_req_id`, `workflow_state_progress`,
`workflow_steps`, and the two cached log objects `_access_log` and
`_predict_log` (opaque tokens). The OCI clients live in the environment. -/
structure ModelDeployment where
  config : Nat
  properties : ModelDeploymentProperties
  current_state : State
  url : String
  model_deployment_id : String
  workflow_req_id : Option String
  workflow_state_progress : List String
  workflow_steps : Nat
  access_log : Option Nat
  predict_log : Option Nat
  deriving DecidableEq, Repr

/-- The remote responses one lifecycle operation consumes:
the `opc-work-request-id` header of the composite-client call, the payload of
deploy's create response (lines 189-196), the `.data` object of the follow-up
`get_model_deployment` (delete/activate/deactivate, and update's refresh),
update's possibly-absent work-request header (line 319), and the per-poll
responses of the wait loop. -/
structure OpEnv where
  work_request_id : String
  create_payload : DeploymentObject
  get_object : DeploymentObject
  update_header_id : Option String
  poll : Nat → PollResponse

/-- The loop data `_wait_for_progress_completion` starts from: `self`'s
current state and url, empty `prev_message`, zero `prev_workflow_stage_len`
(lines 578-579), nothing reported yet. -/
def initLoopState (md : ModelDeployment) : LoopState :=
  ⟨md.current_state, md.url, "", 0, []⟩

/-- Merging the loop's mutations of `self` back into the object: the loop
writes only `self.current_state` (lines 603-607) and `self.url`
(lines 621-622). -/
def afterWait (md : ModelDeployment) (r : Option (LoopState × Nat)) :
    Option ModelDeployment :=
  r.map fun q => { md with current_state := q.1.current_state, url := q.1.url }

/-- Lines 165-209, `deploy(wait_for_completion, max_wait_time,
poll_interval)`: create the deployment, cache the work-request id, state, id
and url from the response, then (when asked) wait for ACTIVE with FAILED and
INACTIVE disallowed. `none` stands for a wait loop still running when the
fuel ran out. -/
def ModelDeployment.deployOp (env : OpEnv) (md : ModelDeployment)
    (wait_for_completion : Bool) (m : Int) (p : Nat) (fuel : Nat) :
    Option ModelDeployment :=
  let md1 := { md with
    workflow_req_id := some env.work_request_id,
    current_state := State.fromStr env.create_payload.lifecycle_state,
    model_deployment_id := env.create_payload.id,
    url := env.create_payload.model_deployment_url }
  if wait_for_completion then
    afterWait md1 (wait_for_progress_completion env.poll State.ACTIVE.nameUpper
      DEFAULT_WORKFLOW_STEPS [State.FAILED.nameUpper, State.INACTIVE.nameUpper]
      m p fuel (initLoopState md1))
  else some md1

/-- Lines 211-259, `delete(wait_for_completion, max_wait_time,
poll_interval)`: cache the work-request id, re-read the state, then (when
asked) wait for DELETED with FAILED and INACTIVE disallowed. -/
def ModelDeployment.deleteOp (env : OpEnv) (md : ModelDeployment)
    (wait_for_completion : Bool) (m : Int) (p : Nat) (fuel : Nat) :
    Option ModelDeployment :=
  let md1 := { md with
    workflow_req_id := some env.work_request_id,
    current_state := State.fromStr env.get_object.lifecycle_state }
  if wait_for_completion then
    afterWait md1 (wait_for_progress_completion env.poll State.DELETED.nameUpper
      DELETE_WORKFLOW_STEPS [State.FAILED.nameUpper, State.INACTIVE.nameUpper]
      m p fuel (initLoopState md1))
  else some md1

/-- Lines 446-497, `activate(wait_for_completion, max_wait_time,
poll_interval)`: cache the work-request id, re-read state, id and url, then
(when asked) wait for ACTIVE with FAILED and INACTIVE disallowed. -/
def ModelDeployment.activateOp (env : OpEnv) (md : ModelDeployment)
    (wait_for_completion : Bool) (m : Int) (p : Nat) (fuel : Nat) :
    Option ModelDeployment :=
  let md1 := { md with
    workflow_req_id := some env.work_request_id,
    current_state := State.fromStr env.get_object.lifecycle_state,
    model_deployment_id := env.get_object.id,
    url := env.get_object.model_deployment_url }
  if wait_for_completion then
    afterWait md1 (wait_for_progress_completion env.poll State.ACTIVE.nameUpper
      DEFAULT_WORKFLOW_STEPS [State.FAILED.nameUpper, State.INACTIVE.nameUpper]
      m p fuel (initLoopState md1))
  else some md1

/-- Lines 499-550, `deactivate(wait_for_completion, max_wait_time,
poll_interval)`: as activate, waiting for INACTIVE with only FAILED
disallowed. -/
def ModelDeployment.deactivateOp (env : OpEnv) (md : ModelDeployment)
    (wait_for_completion : Bool) (m : Int) (p : Nat) (fuel : Nat) :
    Option ModelDeployment :=
  let md1 := { md with
    workflow_req_id := some env.work_request_id,
    current_state := State.fromStr env.get_object.lifecycle_state,
    model_deployment_id := env.get_object.id,
    url := env.get_object.model_deployment_url }
  if wait_for_completion then
    afterWait md1 (wait_for_progress_completion env.poll State.INACTIVE.nameUpper
      DEACTIVATE_WORKFLOW_STEPS [State.FAILED.nameUpper]
      m p fuel (initLoopState md1))
  else some md1

/-- Lines 261-335, `update(properties, wait_for_completion, max_wait_time,
poll_interval)` on its success path: the waiting is delegated to the SDK's
composite call (no local poll loop); the work-request id is cached only when
the header is present (lines 319-320), and when `wait_for_completion` is set
`self.properties` is rebuilt from a fresh `get_model_deployment` read with
`self.config` (lines 321-328). -/
def ModelDeployment.updateOp (env : OpEnv) (md : ModelDeployment)
    (wait_for_completion : Bool) (_m : Int) (_p : Nat) : ModelDeployment :=
  let md1 := match env.update_header_id with
    | some h => { md with workflow_req_id := some h }
    | none => md
  if wait_for_completion then
    { md1 with properties := ⟨some env.get_object, md1.config⟩ }
  else md1

/-- A python object handed to `predict` as `data` or `json_input`: its
truthiness (for python's `or` on line 423), whether
`_is_json_serializable` accepts it (an external predicate of the missing
`ads/model/common/utils.py`), and an identity. -/
structure PyObj where
  truthy : Bool
  json_serializable : Bool
  payload : Nat
  deriving DecidableEq, Repr

/-- Python's `data or json_input` (line 423): the first operand when truthy
(None is falsy), otherwise the second. -/
def pyOr (a b : Option PyObj) : Option PyObj :=
  match a with
  | some x => if x.truthy then some x else b
  | none => b

/-- Whether `_is_json_serializable` accepts the value; `None` serializes to
json `null`, so it is accepted. -/
def isJsonSerializable : Option PyObj → Bool
  | some x => x.json_serializable
  | none => true

/-- How a call to `predict` (lines 374-444) ends: one of the two
`AttributeError`s of lines 413-420, the `ValueError` of lines 428-433, or a
request sent to the deployment endpoint, either through
`InputDataSerializer(...).send` (lines 422-425) or through `send_request`
(lines 440-443). -/
inductive PredictOutcome where
  | attr_error_missing
  | attr_error_both
  | value_error_not_serializable
  | serialized_send (d : Option PyObj)
  | request_send (d : Option PyObj) (is_json_payload : Bool)
  deriving DecidableEq, Repr

/-- Lines 374-444, `predict(json_input, data, auto_serialize_data)`: raise
when both arguments are missing or both are given; with
`auto_serialize_data` send `data or json_input` serialized; otherwise a
non-None `json_input` must be json serializable and becomes `data`; finally
`send_request` posts `data` with `is_json_payload` per serializability. -/
def predict (json_input data : Option PyObj) (auto_serialize_data : Bool) :
    PredictOutcome :=
  if data = none ∧ json_input = none then .attr_error_missing
  else if data ≠ none ∧ json_input ≠ none then .attr_error_both
  else if auto_serialize_data then .serialized_send (pyOr data json_input)
  else
    match json_input with
    | some j =>
      if isJsonSerializable (some j) = false then .value_error_not_serializable
      else .request_send (some j) (isJsonSerializable (some j))
    | none => .request_send data (isJsonSerializable data)

/-- Whether a `predict` outcome sends a request to the deployment endpoint. -/
def PredictOutcome.sendsRequest : PredictOutcome → Bool
  | .serialized_send _ => true
  | .request_send _ _ => true
  | _ => false

/-- A notebook as `driver_notebook.py` handles it: an opaque list of cells. -/
structure Notebook where
  cells : List Nat
  deriving DecidableEq, Repr

/-- How `ep.preprocess` (line 136) ends: all cells ran, or a
`CellExecutionError` was raised part-way; either way the notebook object `nb`
holds the (possibly partially) executed cells, since it is mutated in place. -/
inductive ExecResult where
  | success (executed : Notebook)
  | cell_error (err : Nat) (executed : Notebook)
  deriving DecidableEq, Repr

/-- What a completed `run_notebook` call did: the path the output notebook
was written to (paths are lists of components; `os.path.join(d, b)` appends
`b` to `d`), the notebook content written there, and the returned value
(`None` on success, the `CellExecutionError` on a cell failure). -/
structure RunNotebookResult where
  written_path : List String
  written_notebook : Notebook
  returned_error : Option Nat
  deriving DecidableEq, Repr

/-- Lines 98-145, `run_notebook(notebook_path, working_dir, exclude_tags)`:
read the notebook (an exception here propagates with nothing written); default
the working directory to `os.path.dirname(notebook_path)`; run the cells; in
the `finally` block write the notebook to
`os.path.join(working_dir, os.path.basename(notebook_path))`; return the
`CellExecutionError` instead of raising it, or `None` on success. -/
def run_notebook (read_result : Except Unit Notebook)
    (exec : Notebook → ExecResult) (notebook_path : List String)
    (working_dir : Option (List String)) : Except Unit RunNotebookResult :=
  match read_result with
  | .error e => .error e
  | .ok nb =>
    let wd := match working_dir with
      | some d => d
      | none => notebook_path.dropLast
    let out_path := wd ++ [notebook_path.getLastD ""]
    match exec nb with
    | .success nb2 => .ok ⟨out_path, nb2, none⟩
    | .cell_error err nb2 => .ok ⟨out_path, nb2, some err⟩

/-! Helper lemmas about the polling loop. -/

/-- Unfolding one step of the loop. -/
theorem waitLoopAux_succ (env : Nat → PollResponse) (f : String)
    (D : List String) (m : Int) (p : Nat) (fuel k : Nat) (st : LoopState) :
    waitLoopAux env f D m p (fuel + 1) k st =
      if (m < 0 ∨ ((k * p : Nat) : Int) < m) ∧ st.current_state.nameUpper ≠ f then
        if st.current_state.nameUpper ∈ D then some (st, k)
        else waitLoopAux env f D m p fuel (k + 1) (pollBody (env k) st)
      else some (st, k) := rfl

/-- When the while condition and the disallowed-states check both let the loop
continue, no exit condition holds at this check. -/
theorem not_stop_of_cont {f : String} {D : List String} {m : Int} {p : Nat}
    {st : LoopState} {k : Nat}
    (ht : m < 0 ∨ ((k * p : Nat) : Int) < m)
    (hf : st.current_state.nameUpper ≠ f)
    (hd : st.current_state.nameUpper ∉ D) :
    ¬ stopCond f D m p st k := by
  intro h
  rcases h with h | h | ⟨h0, h1⟩
  · exact hf h
  · exact hd h
  · rcases ht with ht | ht
    · omega
    · omega

/-- When the while condition of line 585-587 fails, an exit condition holds. -/
theorem stop_of_not_while {f : String} {D : List String} {m : Int} {p : Nat}
    {st : LoopState} {k : Nat}
    (h : ¬ ((m < 0 ∨ ((k * p : Nat) : Int) < m) ∧
        st.current_state.nameUpper ≠ f)) :
    stopCond f D m p st k := by
  by_cases hf : st.current_state.nameUpper = f
  · exact Or.inl hf
  · right; right
    push_neg at h
    have ht : ¬ (m < 0 ∨ ((k * p : Nat) : Int) < m) := fun hh => hf (h hh)
    push_neg at ht
    exact ⟨by omega, by omega⟩

/-- The loop (started at check `k` on the trace of `init`) returns within
`fuel` checks exactly when an exit condition holds at one of those checks. -/
theorem waitLoopAux_isSome_iff (env : Nat → PollResponse) (f : String)
    (D : List String) (m : Int) (p : Nat) (init : LoopState) :
    ∀ fuel k, ((waitLoopAux env f D m p fuel k (stAt env init k)).isSome = true ↔
      ∃ j, j < fuel ∧ stopCond f D m p (stAt env init (k + j)) (k + j)) := by
  intro fuel
  induction fuel with
  | zero =>
    intro k
    simp [waitLoopAux]
  | succ fuel ih =>
    intro k
    rw [waitLoopAux_succ]
    by_cases hw : (m < 0 ∨ ((k * p : Nat) : Int) < m) ∧
        (stAt env init k).current_state.nameUpper ≠ f
    · by_cases hd : (stAt env init k).current_state.nameUpper ∈ D
      · rw [if_pos hw, if_pos hd]
        simp only [Option.isSome_some, true_iff]
        exact ⟨0, Nat.succ_pos _, by simpa using Or.inr (Or.inl hd)⟩
      · rw [if_pos hw, if_neg hd]
        have hb : pollBody (env k) (stAt env init k) = stAt env init (k + 1) := rfl
        rw [hb, ih (k + 1)]
        constructor
        · rintro ⟨j, hj, hs⟩
          refine ⟨j + 1, by omega, ?_⟩
          have he : k + (j + 1) = k + 1 + j := by omega
          rw [he]; exact hs
        · rintro ⟨j, hj, hs⟩
          cases j with
          | zero =>
            exact absurd (by simpa using hs) (not_stop_of_cont hw.1 hw.2 hd)
          | succ j =>
            refine ⟨j, by omega, ?_⟩
            have he : k + 1 + j = k + (j + 1) := by omega
            rw [he]; exact hs
    · rw [if_neg hw]
      simp only [Option.isSome_some, true_iff]
      exact ⟨0, Nat.succ_pos _, by simpa using stop_of_not_while hw⟩

/-- When the loop (started at check `k` on the trace of `init`) exits, it
exits at the first check at which an exit condition holds, having executed
exactly that many poll iterations, and the returned data is the trace's at
that check. -/
theorem waitLoopAux_some_spec (env : Nat → PollResponse) (f : String)
    (D : List String) (m : Int) (p : Nat) (init : LoopState) :
    ∀ fuel k st2 n,
      waitLoopAux env f D m p fuel k (stAt env init k) = some (st2, n) →
      k ≤ n ∧ st2 = stAt env init n ∧ stopCond f D m p (stAt env init n) n ∧
        ∀ j, k ≤ j → j < n → ¬ stopCond f D m p (stAt env init j) j := by
  intro fuel
  induction fuel with
  | zero =>
    intro k st2 n h
    simp [waitLoopAux] at h
  | succ fuel ih =>
    intro k st2 n h
    rw [waitLoopAux_succ] at h
    by_cases hw : (m < 0 ∨ ((k * p : Nat) : Int) < m) ∧
        (stAt env init k).current_state.nameUpper ≠ f
    · by_cases hd : (stAt env init k).current_state.nameUpper ∈ D
      · rw [if_pos hw, if_pos hd] at h
        obtain ⟨h1, h2⟩ := Prod.mk.injEq _ _ _ _ |>.mp (Option.some.inj h)
        subst h2
        refine ⟨Nat.le_refl _, h1.symm, Or.inr (Or.inl hd), ?_⟩
        intro j hkj hjn
        omega
      · rw [if_pos hw, if_neg hd] at h
        have hb : pollBody (env k) (stAt env init k) = stAt env init (k + 1) := rfl
        rw [hb] at h
        obtain ⟨hkn, hst, hstop, hmin⟩ := ih (k + 1) st2 n h
        refine ⟨by omega, hst, hstop, ?_⟩
        intro j hkj hjn
        rcases Nat.eq_or_lt_of_le hkj with he | hlt
        · subst he
          exact not_stop_of_cont hw.1 hw.2 hd
        · exact hmin j (by omega) hjn
    · rw [if_neg hw] at h
      obtain ⟨h1, h2⟩ := Prod.mk.injEq _ _ _ _ |>.mp (Option.some.inj h)
      subst h2
      refine ⟨Nat.le_refl _, h1.symm, stop_of_not_while hw, ?_⟩
      intro j hkj hjn
      omega

/-- The progress-reporting step never changes the fetched state. -/
theorem progressStep_current_state (w : List WorkRequestLogEntry)
    (st : LoopState) : (progressStep w st).current_state = st.current_state := by
  unfold progressStep
  split
  · dsimp only
    split <;> rfl
  · rfl

/-! Concrete environments and loop data used by counterexamples and
witnesses. -/

/-- Loop data of an object whose cached state is CREATING, as at the start of
a deploy wait. -/
def initCreating : LoopState := ⟨State.CREATING, "", "", 0, []⟩

/-- An environment in which every remote call raises. -/
def envRaise : Nat → PollResponse := fun _ => ⟨.error (), .error ()⟩

/-- An environment in which every read reports lifecycle state CREATING and
an empty work-request log. -/
def envCreating : Nat → PollResponse :=
  fun _ => ⟨.ok ⟨some "CREATING", none⟩, .ok []⟩

/-- An environment in which every read reports lifecycle state DELETED. -/
def envDeleted : Nat → PollResponse :=
  fun _ => ⟨.ok ⟨some "DELETED", none⟩, .ok []⟩

/-- An environment in which every read reports lifecycle state ACTIVE. -/
def envActive : Nat → PollResponse :=
  fun _ => ⟨.ok ⟨some "ACTIVE", none⟩, .ok []⟩

/-- Work-request logs observed across poll iterations: first one entry with
message "A", then that entry plus two appended entries whose newest message
is again "A". -/
def logsGrowing : Nat → List WorkRequestLogEntry
  | 0 => [⟨"A"⟩]
  | _ + 1 => [⟨"A"⟩, ⟨"B"⟩, ⟨"A"⟩]

/-- An environment whose state stays CREATING while the work-request log
grows as in logsGrowing. -/
def envGrowingLogs : Nat → PollResponse :=
  fun k => ⟨.ok ⟨some "CREATING", none⟩, .ok (logsGrowing k)⟩

/-! The claims. -/

/-- C1: for every call to the polling loop of `_wait_for_progress_completion`
with target state `f`, disallowed states `D`, maximum wait time `m` and poll
interval `p`, the loop exits exactly when one of the exit conditions first
holds along the observed trace: the observed state's name equals `f`, the
observed state's name is in `D`, or `m` is non-negative and the elapsed time
`k * p` has reached `m`. The loop returns within `fuel` checks iff such a
check index below `fuel` exists; when it exits at check `n`, an exit
condition holds there and at no earlier check; and a negative `m` makes the
time condition false at every check, so the time budget never stops the
loop. -/
theorem wait_exit_characterization (env : Nat → PollResponse) (f : String)
    (w : Nat) (D : List String) (m : Int) (p : Nat) (fuel : Nat)
    (init : LoopState) :
    ((wait_for_progress_completion env f w D m p fuel init).isSome = true ↔
      ∃ j, j < fuel ∧ stopCond f D m p (stAt env init j) j) ∧
    (∀ st n, wait_for_progress_completion env f w D m p fuel init = some (st, n) →
      stopCond f D m p (stAt env init n) n ∧
        ∀ j, j < n → ¬ stopCond f D m p (stAt env init j) j) ∧
    (m < 0 → ∀ st k, stopCond f D m p st k ↔
      st.current_state.nameUpper = f ∨ st.current_state.nameUpper ∈ D) := by
  have h0 : stAt env init 0 = init := rfl
  refine ⟨?_, ?_, ?_⟩
  · have h := waitLoopAux_isSome_iff env f D m p init fuel 0
    rw [h0] at h
    simp only [Nat.zero_add] at h
    rw [← h]
    unfold wait_for_progress_completion
    cases waitLoopAux env f D m p fuel 0 init <;> simp
  · intro st n hsome
    unfold wait_for_progress_completion at hsome
    cases haux : waitLoopAux env f D m p fuel 0 init with
    | none => rw [haux] at hsome; simp at hsome
    | some q =>
      rw [haux] at hsome
      simp only [Option.map_some] at hsome
      have hpair := Option.some.inj hsome
      have hq2 : q.2 = n := congrArg Prod.snd hpair
      have haux2 : waitLoopAux env f D m p fuel 0 (stAt env init 0) =
          some (q.1, q.2) := by rw [h0]; rw [haux]
      obtain ⟨_, _, hstop, hmin⟩ :=
        waitLoopAux_some_spec env f D m p init fuel 0 q.1 q.2 haux2
      rw [hq2] at hstop hmin
      exact ⟨hstop, fun j hj => hmin j (Nat.zero_le j) hj⟩
  · intro hm st k
    constructor
    · rintro (h | h | ⟨hle, _⟩)
      · exact Or.inl h
      · exact Or.inr h
      · exact absurd hle (by omega)
    · rintro (h | h)
      · exact Or.inl h
      · exact Or.inr (Or.inl h)

/-- C6 counterexample: with max_wait_time 5 and poll_interval 10 (and a
remote that stays in CREATING so that no state-based exit fires), the loop
performs exactly one poll iteration, yet the time budget divided by the poll
interval is 5 / 10 = 0 (and as a rational, 1/2 < 1): the claimed bound fails
at this input. -/
theorem iteration_bound_cex :
    (wait_for_progress_completion envCreating "ACTIVE" 6 ["FAILED", "INACTIVE"]
        5 10 5 initCreating).map Prod.snd = some 1 ∧
      ¬ ((1 : Nat) ≤ 5 / 10) := by
  constructor
  · rfl
  · decide

/-- C6 amended: for every non-negative max_wait_time `m` and positive poll
interval `p`, the polling loop terminates for every sequence of remote
responses (fuel `m.toNat / p + 2` always suffices), and the number of poll
iterations is at most `m.toNat / p + 1`, the time budget divided by the poll
interval rounded to the next iteration boundary. -/
theorem wait_terminates_with_bound (env : Nat → PollResponse) (f : String)
    (w : Nat) (D : List String) (m : Int) (p : Nat) (init : LoopState)
    (hm : 0 ≤ m) (hp : 0 < p) :
    ∃ r, wait_for_progress_completion env f w D m p (m.toNat / p + 2) init =
        some r ∧ r.2 ≤ m.toNat / p + 1 := by
  have h0 : stAt env init 0 = init := rfl
  have hstop : stopCond f D m p (stAt env init (m.toNat / p + 1)) (m.toNat / p + 1) := by
    right; right
    refine ⟨hm, ?_⟩
    have hlt : m.toNat < p * (m.toNat / p + 1) := Nat.lt_mul_div_succ _ hp
    have hm2 : (m : Int) = (m.toNat : Int) := (Int.toNat_of_nonneg hm).symm
    rw [hm2]
    have : m.toNat ≤ (m.toNat / p + 1) * p := by
      calc m.toNat ≤ p * (m.toNat / p + 1) := Nat.le_of_lt hlt
        _ = (m.toNat / p + 1) * p := Nat.mul_comm _ _
    exact_mod_cast this
  have hiff := waitLoopAux_isSome_iff env f D m p init (m.toNat / p + 2) 0
  rw [h0] at hiff
  simp only [Nat.zero_add] at hiff
  have hsome : (waitLoopAux env f D m p (m.toNat / p + 2) 0 init).isSome = true :=
    hiff.mpr ⟨m.toNat / p + 1, by omega, hstop⟩
  cases haux : waitLoopAux env f D m p (m.toNat / p + 2) 0 init with
  | none => rw [haux] at hsome; simp at hsome
  | some q =>
    have haux2 : waitLoopAux env f D m p (m.toNat / p + 2) 0 (stAt env init 0) =
        some (q.1, q.2) := by rw [h0, haux]
    obtain ⟨_, _, _, hmin⟩ :=
      waitLoopAux_some_spec env f D m p init (m.toNat / p + 2) 0 q.1 q.2 haux2
    refine ⟨({ q.1 with progressUpdates := q.1.progressUpdates ++ ["Done"] }, q.2),
      ?_, ?_⟩
    · unfold wait_for_progress_completion
      rw [haux]
      rfl
    · by_contra hgt
      exact hmin (m.toNat / p + 1) (Nat.zero_le _) (by omega) hstop

/-- C6 amended witness: at max_wait_time 25, poll_interval 10 and an
environment whose every call raises, the loop terminates within the stated
fuel and its iteration count is bounded as the theorem states. -/
theorem wait_terminates_with_bound_witness :
    ∃ r, wait_for_progress_completion envRaise "ACTIVE" 6 ["FAILED", "INACTIVE"]
        25 10 ((25 : Int).toNat / 10 + 2) initCreating = some r ∧
      r.2 ≤ (25 : Int).toNat / 10 + 1 :=
  wait_terminates_with_bound envRaise "ACTIVE" 6 ["FAILED", "INACTIVE"]
    25 10 initCreating (by decide) (by decide)

/-- C3 counterexample: the wait loop started by deploy (target ACTIVE,
disallowed FAILED and INACTIVE) with max_wait_time 30 and poll_interval 10,
against a remote whose state is DELETED: after the first poll iteration the
observed state is DELETED, one of the fixed terminal values of
TERMINAL_STATES, yet the loop goes on to perform three poll iterations in
total (two further ones), exiting only when the time budget runs out. -/
theorem terminal_state_does_not_stop_cex :
    (stAt envDeleted initCreating 1).current_state ∈ TERMINAL_STATES ∧
      (wait_for_progress_completion envDeleted "ACTIVE" 6 ["FAILED", "INACTIVE"]
          30 10 10 initCreating).map Prod.snd = some 3 := by
  constructor
  · decide
  · rfl

/-- C3 amended: the loop performs no further poll iteration only once the
observed state equals the target final state or is one of the disallowed
final states passed by the operation, or the time budget is exhausted;
membership in TERMINAL_STATES is not consulted, so terminal states outside
the passed sets (DELETED during a deploy or activate wait; ACTIVE or DELETED
during a deactivate wait) do not stop polling. -/
theorem wait_stops_only_on_exit_conditions (env : Nat → PollResponse)
    (f : String) (w : Nat) (D : List String) (m : Int) (p : Nat) (fuel : Nat)
    (init : LoopState) (st : LoopState) (n : Nat)
    (h : wait_for_progress_completion env f w D m p fuel init = some (st, n)) :
    st.current_state.nameUpper = f ∨ st.current_state.nameUpper ∈ D ∨
      (0 ≤ m ∧ (m : Int) ≤ ((n * p : Nat) : Int)) := by
  have h0 : stAt env init 0 = init := rfl
  unfold wait_for_progress_completion at h
  cases haux : waitLoopAux env f D m p fuel 0 init with
  | none => rw [haux] at h; simp at h
  | some q =>
    rw [haux] at h
    simp only [Option.map_some] at h
    have hpair := Option.some.inj h
    have hq2 : q.2 = n := congrArg Prod.snd hpair
    have hq1 : ({ q.1 with progressUpdates := q.1.progressUpdates ++ ["Done"] }
        : LoopState) = st := congrArg Prod.fst hpair
    have haux2 : waitLoopAux env f D m p fuel 0 (stAt env init 0) =
        some (q.1, q.2) := by rw [h0, haux]
    obtain ⟨_, hst, hstop, _⟩ :=
      waitLoopAux_some_spec env f D m p init fuel 0 q.1 q.2 haux2
    have hcs : st.current_state = (stAt env init q.2).current_state := by
      rw [← hq1, ← hst]
    rw [hq2] at hcs
    rw [hq2] at hstop
    rcases hstop with hs | hs | hs
    · exact Or.inl (by rw [hcs]; exact hs)
    · exact Or.inr (Or.inl (by rw [hcs]; exact hs))
    · exact Or.inr (Or.inr hs)

/-- C3 amended witness: a wait that exits because the remote reached the
target state ACTIVE satisfies the disjunction at a concrete input. -/
theorem wait_stops_only_on_exit_conditions_witness :
    (⟨State.ACTIVE, "", "", 0, ["Done"]⟩ : LoopState).current_state.nameUpper
        = "ACTIVE" ∨
      (⟨State.ACTIVE, "", "", 0, ["Done"]⟩ : LoopState).current_state.nameUpper
        ∈ ["FAILED", "INACTIVE"] ∨
      (0 ≤ (100 : Int) ∧ ((100 : Int) : Int) ≤ ((1 * 10 : Nat) : Int)) :=
  wait_stops_only_on_exit_conditions envActive "ACTIVE" 6 ["FAILED", "INACTIVE"]
    100 10 5 initCreating ⟨State.ACTIVE, "", "", 0, ["Done"]⟩ 1 rfl

/-- The message of the last entry of a work-request log,
`workflow_payload[-1].message` (empty-log default never used by the code,
which checks the length first). -/
def lastMessage (w : List WorkRequestLogEntry) : String :=
  ((w.getLast?).getD ⟨""⟩).message

/-- A successful poll iteration is the progress-reporting step applied to the
state with the freshly fetched lifecycle state, except possibly for the
cached url. -/
theorem pollBody_ok_eq (payload : DeploymentPayload)
    (w : List WorkRequestLogEntry) (st : LoopState) :
    ∃ u, pollBody ⟨.ok payload, .ok w⟩ st =
      { progressStep w { st with current_state := stateOfPayload payload } with
        url := u } := by
  unfold pollBody pollTry
  dsimp only
  split
  · cases hu : payload.model_deployment_url with
    | some u => exact ⟨u, rfl⟩
    | none =>
      exact ⟨(progressStep w
        { st with current_state := stateOfPayload payload }).url, rfl⟩
  · exact ⟨(progressStep w
      { st with current_state := stateOfPayload payload }).url, rfl⟩

/-- C2 counterexample: target ACTIVE, disallowed FAILED and INACTIVE,
max_wait_time 20, poll_interval 10, remote state stays CREATING, and the
work-request log holds one entry with message "A" at the first poll and three
entries (two newly observed) whose newest message is again "A" at the second.
Three log entries are observed in total, but only one progress update is
reported besides the final "Done": the two entries appended at the second
poll are skipped, because the newest message then equals the recorded
previous message. -/
theorem progress_updates_miss_entries_cex :
    (wait_for_progress_completion envGrowingLogs "ACTIVE" 6
        ["FAILED", "INACTIVE"] 20 10 5 initCreating).map
        (fun r => r.1.progressUpdates) = some ["A", "Done"] ∧
      (logsGrowing 0).length = 1 ∧ (logsGrowing 1).length = 3 :=
  ⟨rfl, rfl, rfl⟩

/-- C2 amended: in each successful poll iteration, progress updates are
emitted only when the observed log is non-empty and its newest entry's
message differs from the previously recorded message; in that case exactly
`len(workflow_payload) - prev_workflow_stage_len` copies of the newest
message are reported and the recorded length and message are refreshed;
otherwise nothing is reported and the records are unchanged — so newly
observed entries whose arrival leaves the newest message equal to the
recorded one are never reported. -/
theorem progress_updates_per_iteration (st : LoopState)
    (payload : DeploymentPayload) (w : List WorkRequestLogEntry) :
    (pollBody ⟨.ok payload, .ok w⟩ st).progressUpdates =
      st.progressUpdates ++
        (if w ≠ [] ∧ st.prev_message ≠ lastMessage w then
          List.replicate (w.length - st.prev_workflow_stage_len) (lastMessage w)
        else []) ∧
    (pollBody ⟨.ok payload, .ok w⟩ st).prev_workflow_stage_len =
      (if w ≠ [] ∧ st.prev_message ≠ lastMessage w then w.length
        else st.prev_workflow_stage_len) ∧
    (pollBody ⟨.ok payload, .ok w⟩ st).prev_message =
      (if w ≠ [] ∧ st.prev_message ≠ lastMessage w then lastMessage w
        else st.prev_message) := by
  obtain ⟨u, hu⟩ := pollBody_ok_eq payload w st
  rw [hu]
  by_cases hw : w = []
  · subst hw
    simp [progressStep, lastMessage]
  · by_cases hmsg : st.prev_message = lastMessage w
    · simp only [lastMessage] at hmsg
      simp [progressStep, lastMessage, hw, hmsg]
    · simp only [lastMessage] at hmsg
      simp [progressStep, lastMessage, hw, hmsg]

/-- C4 counterexample: an environment in which every remote client call
raises. The first poll iteration's try block raises (pollTry returns its
error state), yet the wait returns normally after the time budget, with the
loop data untouched and no exception surfaced to the caller: the client
exceptions were silently discarded by the bare `except: pass` of lines
626-631 (whose logging statement is commented out), not logged and
re-raised. -/
theorem poll_exception_swallowed_cex :
    pollTry (envRaise 0) initCreating = .error initCreating ∧
      wait_for_progress_completion envRaise "ACTIVE" 6 ["FAILED", "INACTIVE"]
        20 10 5 initCreating =
        some (⟨State.CREATING, "", "", 0, ["Done"]⟩, 2) :=
  ⟨rfl, rfl⟩

/-- C4 amended: exceptions raised by the remote client during the polling
loop's per-iteration reads are caught by a bare handler and silently
discarded rather than logged and re-raised: a failing `get_model_deployment`
leaves the iteration's loop data exactly as it was, and a failing
`list_work_request_logs` keeps the already-assigned fresh state and discards
the rest of the iteration; the loop then continues polling. Only exceptions
escaping the wait call itself are logged and re-raised by the operations. -/
theorem poll_exception_silently_discarded (resp : PollResponse)
    (st : LoopState) :
    (resp.get = .error () → pollBody resp st = st) ∧
    (∀ payload, resp.get = .ok payload → resp.logs = .error () →
      pollBody resp st = { st with current_state := stateOfPayload payload }) := by
  obtain ⟨g, l⟩ := resp
  constructor
  · intro h
    cases g with
    | error e => rfl
    | ok payload => exact absurd h (by simp)
  · intro payload h hl
    cases g with
    | error e => exact absurd h (by simp)
    | ok p =>
      injection h with h2
      subst h2
      cases l with
      | error e2 => rfl
      | ok ll => exact absurd hl (by simp)

/-- C7: after every poll iteration whose `get_model_deployment` read
succeeded, the locally cached `current_state` equals the State-enumeration
translation of the `lifecycle_state` field of that most recent read's payload
(UNKNOWN when the field is absent), whatever else the iteration did — the
state is copied from the remote read, not derived locally. -/
theorem current_state_tracks_last_read (resp : PollResponse) (st : LoopState)
    (payload : DeploymentPayload) (h : resp.get = .ok payload) :
    (pollBody resp st).current_state = stateOfPayload payload := by
  obtain ⟨g, l⟩ := resp
  cases g with
  | error e => exact absurd h (by simp)
  | ok p =>
    injection h with h2
    subst h2
    cases l with
    | error e => rfl
    | ok w =>
      unfold pollBody pollTry
      dsimp only
      split
      · cases p.model_deployment_url with
        | some u => exact progressStep_current_state w _
        | none => exact progressStep_current_state w _
      · exact progressStep_current_state w _

/-- C7 witness: a concrete successful read reporting ACTIVE. -/
theorem current_state_tracks_last_read_witness :
    (pollBody ⟨.ok ⟨some "ACTIVE", none⟩, .ok []⟩ initCreating).current_state =
      stateOfPayload ⟨some "ACTIVE", none⟩ :=
  current_state_tracks_last_read ⟨.ok ⟨some "ACTIVE", none⟩, .ok []⟩
    initCreating ⟨some "ACTIVE", none⟩ rfl

/-- An environment for the `state` property in which every get request
raises. -/
def envStateFail : Nat → Except Unit String := fun _ => .error ()

/-- C5 counterexample: when every remote read fails, one invocation of the
`state` property issues three locally-initiated `get_model_deployment`
requests (DEFAULT_RETRYING_REQUEST_ATTEMPTS), not at most one, before
returning the cached state. -/
theorem state_retries_cex :
    state_property envStateFail State.CREATING = (State.CREATING, 3) ∧
      ¬ ((3 : Nat) ≤ 1) :=
  ⟨rfl, by decide⟩

/-- The retry loop of the `state` property issues at most one request per
remaining attempt. -/
theorem statePropertyAux_requests_le (env : Nat → Except Unit String) :
    ∀ n req cur, (statePropertyAux env n req cur).2 ≤ req + n := by
  intro n
  induction n with
  | zero =>
    intro req cur
    simp [statePropertyAux]
  | succ n ih =>
    intro req cur
    cases h : env req with
    | ok s =>
      simp only [statePropertyAux, h]
      show req + 1 ≤ req + (n + 1)
      omega
    | error e =>
      simp only [statePropertyAux, h]
      exact (ih (req + 1) cur).trans (by omega)

/-- C5 amended: the `state` property runs a local retry loop of up to
DEFAULT_RETRYING_REQUEST_ATTEMPTS (three) locally-initiated
`get_model_deployment` requests per invocation: it stops at the first
success, translating and caching the returned lifecycle state, and after
three failures it returns the cached state. -/
theorem state_retry_bounds (env : Nat → Except Unit String) (cached : State) :
    (state_property env cached).2 ≤ DEFAULT_RETRYING_REQUEST_ATTEMPTS ∧
    (∀ s, env 0 = .ok s → state_property env cached = (State.fromStr s, 1)) ∧
    ((∀ i, i < DEFAULT_RETRYING_REQUEST_ATTEMPTS → env i = .error ()) →
      state_property env cached = (cached, DEFAULT_RETRYING_REQUEST_ATTEMPTS)) := by
  have e3 : statePropertyAux env 3 0 cached =
      match env 0 with
      | .ok s2 => (State.fromStr s2, 1)
      | .error _ => statePropertyAux env 2 1 cached := rfl
  have e2 : statePropertyAux env 2 1 cached =
      match env 1 with
      | .ok s2 => (State.fromStr s2, 2)
      | .error _ => statePropertyAux env 1 2 cached := rfl
  have e1 : statePropertyAux env 1 2 cached =
      match env 2 with
      | .ok s2 => (State.fromStr s2, 3)
      | .error _ => (cached, 3) := rfl
  refine ⟨?_, ?_, ?_⟩
  · have hb := statePropertyAux_requests_le env 3 0 cached
    simpa [state_property, DEFAULT_RETRYING_REQUEST_ATTEMPTS] using hb
  · intro s h0
    show statePropertyAux env 3 0 cached = _
    simp only [e3, h0]
  · intro hall
    have h0 := hall 0 (by decide)
    have h1 := hall 1 (by decide)
    have h2 := hall 2 (by decide)
    show statePropertyAux env 3 0 cached = _
    simp only [e3, h0, e2, h1, e1, h2]
    rfl

/-- Every local field other than the cached state, the url and the two ids
is unchanged (the bookkeeping frame of deploy, delete, activate and
deactivate). -/
def onlyStateUrlIdsChanged (md md2 : ModelDeployment) : Prop :=
  md2.config = md.config ∧ md2.properties = md.properties ∧
  md2.workflow_state_progress = md.workflow_state_progress ∧
  md2.workflow_steps = md.workflow_steps ∧
  md2.access_log = md.access_log ∧ md2.predict_log = md.predict_log

/-- Every local field other than the workflow request id and the cached
properties is unchanged (the frame of update). -/
def onlyReqIdPropertiesChanged (md md2 : ModelDeployment) : Prop :=
  md2.config = md.config ∧ md2.current_state = md.current_state ∧
  md2.url = md.url ∧ md2.model_deployment_id = md.model_deployment_id ∧
  md2.workflow_state_progress = md.workflow_state_progress ∧
  md2.workflow_steps = md.workflow_steps ∧
  md2.access_log = md.access_log ∧ md2.predict_log = md.predict_log

/-- Merging the wait loop's result back into the object touches only the
cached state and url. -/
theorem afterWait_some (md : ModelDeployment) (r : Option (LoopState × Nat))
    (md2 : ModelDeployment) (h : afterWait md r = some md2) :
    md2.config = md.config ∧ md2.properties = md.properties ∧
    md2.model_deployment_id = md.model_deployment_id ∧
    md2.workflow_req_id = md.workflow_req_id ∧
    md2.workflow_state_progress = md.workflow_state_progress ∧
    md2.workflow_steps = md.workflow_steps ∧
    md2.access_log = md.access_log ∧ md2.predict_log = md.predict_log := by
  cases r with
  | none => simp [afterWait] at h
  | some q =>
    have h2 : ({ md with current_state := q.1.current_state, url := q.1.url } :
        ModelDeployment) = md2 := Option.some.inj h
    subst h2
    exact ⟨rfl, rfl, rfl, rfl, rfl, rfl, rfl, rfl⟩

/-- A remote object and deployment object used by counterexamples and
witnesses. -/
def sampleObject : DeploymentObject := ⟨"ACTIVE", "ocid-1", "url-1"⟩

/-- A concrete ModelDeployment before an operation. -/
def sampleDeployment : ModelDeployment :=
  ⟨0, ⟨none, 0⟩, State.ACTIVE, "url-1", "ocid-1", none, [], 6, none, none⟩

/-- A concrete operation environment. -/
def sampleOpEnv : OpEnv := ⟨"wr-1", sampleObject, sampleObject, some "wr-1", envActive⟩

/-- C8 counterexample: update with wait_for_completion rebuilds the cached
`self.properties` from a fresh remote read (lines 322-328), so update
mutates a local field that is neither the state, nor the URL, nor an id. -/
theorem update_mutates_properties_cex :
    (ModelDeployment.updateOp sampleOpEnv sampleDeployment true 1200 10).properties ≠
      sampleDeployment.properties := by
  decide

/-- C8 amended: deploy, delete, activate and deactivate mutate only the
cached state, the URL and the two ids, leaving every other local field (the
authentication config, the cached properties, the workflow bookkeeping, the
cached log objects) unchanged; update mutates only the workflow request id
and — when told to wait — the cached properties, leaving everything else,
including the authentication config, unchanged. -/
theorem operations_frame (env : OpEnv) (md : ModelDeployment) (wfc : Bool)
    (m : Int) (p : Nat) (fuel : Nat) :
    (∀ md2, ModelDeployment.deployOp env md wfc m p fuel = some md2 →
      onlyStateUrlIdsChanged md md2) ∧
    (∀ md2, ModelDeployment.deleteOp env md wfc m p fuel = some md2 →
      onlyStateUrlIdsChanged md md2) ∧
    (∀ md2, ModelDeployment.activateOp env md wfc m p fuel = some md2 →
      onlyStateUrlIdsChanged md md2) ∧
    (∀ md2, ModelDeployment.deactivateOp env md wfc m p fuel = some md2 →
      onlyStateUrlIdsChanged md md2) ∧
    onlyReqIdPropertiesChanged md (ModelDeployment.updateOp env md wfc m p) := by
  refine ⟨?_, ?_, ?_, ?_, ?_⟩
  · intro md2 h
    cases wfc with
    | false =>
      simp only [ModelDeployment.deployOp, Bool.false_eq_true, if_false,
        Option.some.injEq] at h
      subst h
      exact ⟨rfl, rfl, rfl, rfl, rfl, rfl⟩
    | true =>
      simp only [ModelDeployment.deployOp, if_true] at h
      obtain ⟨h1, h2, _, _, h5, h6, h7, h8⟩ := afterWait_some _ _ _ h
      exact ⟨h1, h2, h5, h6, h7, h8⟩
  · intro md2 h
    cases wfc with
    | false =>
      simp only [ModelDeployment.deleteOp, Bool.false_eq_true, if_false,
        Option.some.injEq] at h
      subst h
      exact ⟨rfl, rfl, rfl, rfl, rfl, rfl⟩
    | true =>
      simp only [ModelDeployment.deleteOp, if_true] at h
      obtain ⟨h1, h2, _, _, h5, h6, h7, h8⟩ := afterWait_some _ _ _ h
      exact ⟨h1, h2, h5, h6, h7, h8⟩
  · intro md2 h
    cases wfc with
    | false =>
      simp only [ModelDeployment.activateOp, Bool.false_eq_true, if_false,
        Option.some.injEq] at h
      subst h
      exact ⟨rfl, rfl, rfl, rfl, rfl, rfl⟩
    | true =>
      simp only [ModelDeployment.activateOp, if_true] at h
      obtain ⟨h1, h2, _, _, h5, h6, h7, h8⟩ := afterWait_some _ _ _ h
      exact ⟨h1, h2, h5, h6, h7, h8⟩
  · intro md2 h
    cases wfc with
    | false =>
      simp only [ModelDeployment.deactivateOp, Bool.false_eq_true, if_false,
        Option.some.injEq] at h
      subst h
      exact ⟨rfl, rfl, rfl, rfl, rfl, rfl⟩
    | true =>
      simp only [ModelDeployment.deactivateOp, if_true] at h
      obtain ⟨h1, h2, _, _, h5, h6, h7, h8⟩ := afterWait_some _ _ _ h
      exact ⟨h1, h2, h5, h6, h7, h8⟩
  · cases hu : env.update_header_id <;> cases wfc <;>
      simp [ModelDeployment.updateOp, hu, onlyReqIdPropertiesChanged]

/-- C8 amended witness: deploy against the sample environment without
waiting preserves the bookkeeping frame at a concrete input. -/
theorem operations_frame_witness :
    onlyStateUrlIdsChanged sampleDeployment
      ⟨0, ⟨none, 0⟩, State.fromStr sampleObject.lifecycle_state,
        sampleObject.model_deployment_url, sampleObject.id, some "wr-1", [], 6,
        none, none⟩ :=
  (operations_frame sampleOpEnv sampleDeployment false 1200 10 5).1
    ⟨0, ⟨none, 0⟩, State.fromStr sampleObject.lifecycle_state,
      sampleObject.model_deployment_url, sampleObject.id, some "wr-1", [], 6,
      none, none⟩ rfl

/-- C9: predict raises AttributeError when both `data` and `json_input` are
missing, raises AttributeError when both are provided, and sends a request
to the deployment endpoint only when exactly one of the two is provided. -/
theorem predict_argument_validation (json_input data : Option PyObj)
    (auto_serialize_data : Bool) :
    ((data = none ∧ json_input = none) →
      predict json_input data auto_serialize_data =
        PredictOutcome.attr_error_missing) ∧
    ((data ≠ none ∧ json_input ≠ none) →
      predict json_input data auto_serialize_data =
        PredictOutcome.attr_error_both) ∧
    ((predict json_input data auto_serialize_data).sendsRequest = true →
      data.isSome = !json_input.isSome) := by
  rcases data with _ | d <;> rcases json_input with _ | j
  · refine ⟨fun _ => rfl, fun h => absurd rfl h.1, fun hs => ?_⟩
    simp [predict, PredictOutcome.sendsRequest] at hs
  · exact ⟨fun h => absurd h.2 (by simp), fun h => absurd rfl h.1, fun _ => rfl⟩
  · exact ⟨fun h => absurd h.1 (by simp), fun h => absurd h.2 (by simp),
      fun _ => rfl⟩
  · refine ⟨fun h => absurd h.1 (by simp), fun _ => rfl, fun hs => ?_⟩
    simp [predict, PredictOutcome.sendsRequest] at hs

/-- C10: when the notebook is read successfully, run_notebook writes the
executed notebook to the working directory (defaulting to the notebook's own
directory) joined with the notebook's basename on both paths — all cells
succeeded, or a cell raised CellExecutionError — and returns None on
success and the CellExecutionError object, instead of raising it, on
failure. -/
theorem run_notebook_always_writes (rd : Except Unit Notebook)
    (exec : Notebook → ExecResult) (notebook_path : List String)
    (working_dir : Option (List String)) (nb : Notebook)
    (h : rd = .ok nb) :
    ∃ r, run_notebook rd exec notebook_path working_dir = .ok r ∧
      r.written_path =
        (working_dir.getD notebook_path.dropLast) ++ [notebook_path.getLastD ""] ∧
      (∀ nb2, exec nb = .success nb2 →
        r.written_notebook = nb2 ∧ r.returned_error = none) ∧
      (∀ e nb2, exec nb = .cell_error e nb2 →
        r.written_notebook = nb2 ∧ r.returned_error = some e) := by
  subst h
  unfold run_notebook
  dsimp only
  have hwd : (match working_dir with
      | some d => d
      | none => notebook_path.dropLast) =
      working_dir.getD notebook_path.dropLast := by
    cases working_dir <;> rfl
  rw [hwd]
  cases hex : exec nb with
  | success nb2 =>
    simp only [hex]
    refine ⟨⟨working_dir.getD notebook_path.dropLast ++ [notebook_path.getLastD ""],
      nb2, none⟩, rfl, rfl, ?_, ?_⟩
    · intro nb3 h3
      injection h3 with h4
      subst h4
      exact ⟨rfl, rfl⟩
    · intro e nb3 h3
      exact absurd h3 (by simp)
  | cell_error err nb2 =>
    simp only [hex]
    refine ⟨⟨working_dir.getD notebook_path.dropLast ++ [notebook_path.getLastD ""],
      nb2, some err⟩, rfl, rfl, ?_, ?_⟩
    · intro nb3 h3
      exact absurd h3 (by simp)
    · intro e nb3 h3
      injection h3 with h4 h5
      subst h4
      subst h5
      exact ⟨rfl, rfl⟩

/-- C10 witness: a one-cell notebook whose execution succeeds, run with no
explicit working directory. -/
theorem run_notebook_always_writes_witness :
    ∃ r, run_notebook (Except.ok (⟨[1]⟩ : Notebook))
        (fun nb => ExecResult.success nb) ["outputs", "nb"] none = .ok r ∧
      r.written_path =
        ((none : Option (List String)).getD (["outputs", "nb"].dropLast)) ++
          [["outputs", "nb"].getLastD ""] ∧
      (∀ nb2, (fun nb => ExecResult.success nb) (⟨[1]⟩ : Notebook) = .success nb2 →
        r.written_notebook = nb2 ∧ r.returned_error = none) ∧
      (∀ e nb2, (fun nb => ExecResult.success nb) (⟨[1]⟩ : Notebook) =
          .cell_error e nb2 →
        r.written_notebook = nb2 ∧ r.returned_error = some e) :=
  run_notebook_always_writes (Except.ok ⟨[1]⟩) (fun nb => ExecResult.success nb)
    ["outputs", "nb"] none ⟨[1]⟩ rfl

end ADS
